import Mathlib

/-!
Verification development for the bus-connection and processing-loop
subsystem of sdbus-cpp, as exposed through `include/sdbus-c++/IConnection.h`.

The header declares the public surface: the pure-virtual `IConnection`
capability (`requestName`, `releaseName`, `enterProcessingLoop`,
`enterProcessingLoopAsync`, `leaveProcessingLoop`, virtual destructor) and
six factory functions returning `std::unique_ptr<IConnection>`.  The
implementation behind the interface is not part of this source tree, so the
behavioural definitions below are modelled from the specification document
(connection lifecycle, dual-mode processing loop, name registry, error
taxonomy); the declaration-level facts (factory surface shape, return types,
single exception type) are embedded directly from the header.
-/

namespace SdbusSpec

/-- Modelled from the spec: kind of bus a Transport Handle is opened to
(system bus or session bus); the header offers factories for both. -/
inductive BusKind
| system
| session
deriving DecidableEq, Repr

/-- Modelled from the spec: the error taxonomy of section 7 of the design
document; the header only declares the single exception type sdbus::Error. -/
inductive ErrorKind
| TransportError
| InvalidName
| NameUnavailable
| NotOwned
| AlreadyRunning
| MalformedFrame
deriving DecidableEq, Repr

/-- Modelled from the spec: an sdbus::Error value, carrying an identifying
kind and a human-readable message, the only failure-reporting channel of the
public surface. -/
structure Error where
  kind : ErrorKind
  message : String
deriving DecidableEq, Repr

/-- Modelled from the spec: the Processing Loop state machine.  The states
are exactly Idle, RunningSync and RunningAsync. -/
inductive LoopState
| Idle
| RunningSync
| RunningAsync
deriving DecidableEq, Repr

/-- Modelled from the spec: the observable state of a Connection: bus kind,
processing-loop state, the Name Registry (names owned on this handle), the
open/closed flag of the exclusively owned Transport Handle, whether any
background execution context has been joined (true when none was ever
spawned or the spawned one has been joined), and the recorded fatal error of
an asynchronous loop awaiting surfacing. -/
structure Connection where
  bus : BusKind
  loopState : LoopState
  names : List String
  transportOpen : Bool
  backgroundJoined : Bool
  recordedError : Option Error
deriving DecidableEq, Repr

/-- Modelled from the spec: the bus daemon's reply to a name request, the
environment input that decides which of the documented outcomes of
requestName occurs (granted, NameUnavailable, InvalidName, TransportError). -/
inductive BusReply
| granted
| unavailable
| invalidName
| ioError
deriving DecidableEq, Repr

/-- Modelled from the spec: requestName asks the bus daemon to assign a name
to this connection and records it in the Name Registry on success; an
already-owned name is a no-op success (idempotent re-request); otherwise the
bus reply decides between success, NameUnavailable, InvalidName and
TransportError.  Validation failures leave the Connection state unchanged. -/
def requestName (c : Connection) (n : String) (reply : BusReply) :
    Connection × Option Error :=
  if n ∈ c.names then (c, none)
  else
    match reply with
    | .granted => ({ c with names := c.names ++ [n] }, none)
    | .unavailable => (c, some ⟨.NameUnavailable, "name already owned by another peer"⟩)
    | .invalidName => (c, some ⟨.InvalidName, "malformed bus name"⟩)
    | .ioError => (c, some ⟨.TransportError, "transport I/O failure"⟩)

/-- Modelled from the spec: releaseName releases a previously acquired name;
it fails with NotOwned when the registry has no record of owning the name on
this handle, and with TransportError on I/O failure; on success the name is
removed from the Name Registry.  Failures leave the state unchanged. -/
def releaseName (c : Connection) (n : String) (ioOk : Bool) :
    Connection × Option Error :=
  if n ∈ c.names then
    if ioOk then ({ c with names := c.names.erase n }, none)
    else (c, some ⟨.TransportError, "transport I/O failure"⟩)
  else (c, some ⟨.NotOwned, "name not owned on this connection"⟩)

/-- Modelled from the spec: one unit of transport input observed by the
processing loop: a complete well-formed frame (identified by a payload
number), a malformed or truncated frame, a stop signal from
leaveProcessingLoop, or a broken transport (socket closed or reset). -/
inductive FrameEvent
| frame (f : Nat)
| malformed
| stopSignal
| transportBroken
deriving DecidableEq, Repr

/-- Modelled from the spec: one invocation of the Dispatch Callback Surface:
either a well-formed frame handed over synchronously, or a per-frame
delivery-error report for a malformed frame. -/
inductive Delivery
| frame (f : Nat)
| deliveryError
deriving DecidableEq, Repr

/-- Modelled from the spec: the loop body shared by both modes (section
4.2).  It consumes transport events in arrival order; a stop signal exits
cleanly, a broken transport exits with a fatal TransportError, a well-formed
frame is dispatched synchronously, and a malformed frame is reported as a
delivery error without terminating the loop.  The result is the ordered list
of Dispatch Callback Surface invocations and the fatal error, if any.  An
exhausted event list models the end of the observed run. -/
def runLoop : List FrameEvent → List Delivery × Option Error
  | [] => ([], none)
  | .stopSignal :: _ => ([], none)
  | .transportBroken :: _ => ([], some ⟨.TransportError, "transport broken"⟩)
  | .frame f :: rest =>
      let r := runLoop rest
      (.frame f :: r.1, r.2)
  | .malformed :: rest =>
      let r := runLoop rest
      (.deliveryError :: r.1, r.2)

/-- Modelled from the spec: the well-formed frames arriving on the transport
during a run, in arrival order, up to the event that ends the loop.  This is
the reference order against which FIFO delivery is checked. -/
def arrivalFrames : List FrameEvent → List Nat
  | [] => []
  | .stopSignal :: _ => []
  | .transportBroken :: _ => []
  | .frame f :: rest => f :: arrivalFrames rest
  | .malformed :: rest => arrivalFrames rest

/-- Modelled from the spec: the well-formed frames actually handed to the
Dispatch Callback Surface, in invocation order. -/
def deliveredFrames : List Delivery → List Nat
  | [] => []
  | .frame f :: rest => f :: deliveredFrames rest
  | .deliveryError :: rest => deliveredFrames rest

/-- Modelled from the spec: enterProcessingLoop runs the synchronous
(caller-blocking) loop.  If a loop of either kind is already active it fails
with AlreadyRunning, making no dispatch and leaving the state untouched;
otherwise it runs the shared loop body over the arriving events, settles the
loop state back to Idle on exit, and surfaces the fatal transport error, if
any, to the blocking caller. -/
def enterProcessingLoop (c : Connection) (events : List FrameEvent) :
    Connection × List Delivery × Option Error :=
  match c.loopState with
  | .Idle =>
      let r := runLoop events
      ({ c with loopState := .Idle }, r.1, r.2)
  | .RunningSync => (c, [], some ⟨.AlreadyRunning, "processing loop already running"⟩)
  | .RunningAsync => (c, [], some ⟨.AlreadyRunning, "processing loop already running"⟩)

/-- Modelled from the spec: enterProcessingLoopAsync spawns a background
execution context running the identical loop body and returns immediately;
it fails with AlreadyRunning under the same condition as the synchronous
variant, leaving the state untouched. -/
def enterProcessingLoopAsync (c : Connection) : Connection × Option Error :=
  match c.loopState with
  | .Idle => ({ c with loopState := .RunningAsync, backgroundJoined := false }, none)
  | .RunningSync => (c, some ⟨.AlreadyRunning, "processing loop already running"⟩)
  | .RunningAsync => (c, some ⟨.AlreadyRunning, "processing loop already running"⟩)

/-- Modelled from the spec: the background execution context of an
asynchronous loop running the identical loop body to completion; a fatal
transport error is recorded on the Connection to be surfaced on the next
interaction, never silently swallowed, and the loop state settles to Idle. -/
def asyncLoopRun (c : Connection) (events : List FrameEvent) :
    Connection × List Delivery :=
  let r := runLoop events
  ({ c with loopState := .Idle, recordedError := r.2 }, r.1)

/-- Modelled from the spec: leaveProcessingLoop signals the active loop to
stop after its current iteration and blocks until a background loop has
fully stopped (joined) before returning; calling it when Idle is a no-op.
It always returns successfully (no error). -/
def leaveProcessingLoop (c : Connection) : Connection × Option Error :=
  match c.loopState with
  | .Idle => (c, none)
  | .RunningSync => ({ c with loopState := .Idle, backgroundJoined := true }, none)
  | .RunningAsync => ({ c with loopState := .Idle, backgroundJoined := true }, none)

/-- Modelled from the spec: destruction of a Connection: when the loop state
is RunningAsync it performs the equivalent of leaveProcessingLoop (stop and
join the background context) before releasing the Transport Handle; the
destructor itself never invokes the Dispatch Callback Surface, so its
delivery list is empty. -/
def destroy (c : Connection) : Connection × List Delivery :=
  let c1 := if c.loopState = .RunningAsync then (leaveProcessingLoop c).1 else c
  ({ c1 with transportOpen := false }, [])

/-- Modelled from the spec: a freshly opened Connection on the given bus:
Idle loop, empty Name Registry, open Transport Handle, no background
context, no recorded error. -/
def freshConnection (b : BusKind) : Connection :=
  { bus := b
    loopState := .Idle
    names := []
    transportOpen := true
    backgroundJoined := true
    recordedError := none }

/-- The six factory functions declared in IConnection.h: createConnection
and createConnection(name), createSystemBusConnection and
createSystemBusConnection(name), createSessionBusConnection and
createSessionBusConnection(name). -/
inductive FactoryCall
| createConnection
| createConnectionWithName (name : String)
| createSystemBusConnection
| createSystemBusConnectionWithName (name : String)
| createSessionBusConnection
| createSessionBusConnectionWithName (name : String)
deriving DecidableEq, Repr

/-- The bus/name combination a factory call opens.  Per the header's doc
comments, createConnection and createConnection(name) create a system
connection, the same as the explicit system-bus factories; the named
variants request the given name on the connection after its opening. -/
structure ConnSpec where
  bus : BusKind
  requestedName : Option String
deriving DecidableEq, Repr

/-- The combination each declared factory targets, read off the header's
doc comments (createConnection: "Creates/opens D-Bus system connection"). -/
def factoryTarget : FactoryCall → ConnSpec
  | .createConnection => ⟨.system, none⟩
  | .createConnectionWithName n => ⟨.system, some n⟩
  | .createSystemBusConnection => ⟨.system, none⟩
  | .createSystemBusConnectionWithName n => ⟨.system, some n⟩
  | .createSessionBusConnection => ⟨.session, none⟩
  | .createSessionBusConnectionWithName n => ⟨.session, some n⟩

/-- Modelled from the spec: opening a connection for a target combination:
establishing the transport either succeeds or fails with a
transport-establishment error; a named variant then requests the name on the
fresh connection, and a failure of that request fails the whole factory call
(there is no partial-success result). -/
def openConnection (s : ConnSpec) (transportOk : Bool) (reply : BusReply) :
    Except Error Connection :=
  if transportOk then
    match s.requestedName with
    | none => .ok (freshConnection s.bus)
    | some n =>
        let r := requestName (freshConnection s.bus) n reply
        match r.2 with
        | none => .ok r.1
        | some e => .error e
  else .error ⟨.TransportError, "failed to establish bus transport"⟩

/-- Shape of the declared success return of a public operation in
IConnection.h: a C++ void return or an owned Connection handle
(std::unique_ptr of IConnection). -/
inductive ReturnShape
| unitReturn
| ownedConnection
deriving DecidableEq, Repr

/-- One operation of the public surface declared in IConnection.h: its name,
declared success return shape, whether it reports failure solely by throwing
sdbus::Error (the class doc states all methods throw sdbus::Error in case of
failure, and each factory's doc carries a throws sdbus::Error clause), and
whether it returns an error code or boolean status instead. -/
structure ApiOperation where
  opName : String
  returns : ReturnShape
  throwsSdbusError : Bool
  returnsErrorCode : Bool
deriving DecidableEq, Repr

/-- The full public surface declared in IConnection.h: the five IConnection
methods and the six factory functions, with their declared return shapes. -/
def publicSurface : List ApiOperation :=
  [ ⟨"requestName", .unitReturn, true, false⟩,
    ⟨"releaseName", .unitReturn, true, false⟩,
    ⟨"enterProcessingLoop", .unitReturn, true, false⟩,
    ⟨"enterProcessingLoopAsync", .unitReturn, true, false⟩,
    ⟨"leaveProcessingLoop", .unitReturn, true, false⟩,
    ⟨"createConnection", .ownedConnection, true, false⟩,
    ⟨"createConnection(name)", .ownedConnection, true, false⟩,
    ⟨"createSystemBusConnection", .ownedConnection, true, false⟩,
    ⟨"createSystemBusConnection(name)", .ownedConnection, true, false⟩,
    ⟨"createSessionBusConnection", .ownedConnection, true, false⟩,
    ⟨"createSessionBusConnection(name)", .ownedConnection, true, false⟩ ]

/-- Modelled from the spec: a connection whose synchronous loop is active,
used as a concrete witness state. -/
def runningSyncConnection : Connection :=
  { freshConnection .system with loopState := .RunningSync }

/-- Modelled from the spec: a connection whose asynchronous loop is active
(background context spawned and not yet joined), used as a concrete witness
state. -/
def runningAsyncConnection : Connection :=
  { freshConnection .session with loopState := .RunningAsync, backgroundJoined := false }

end SdbusSpec

namespace SdbusSpec

/-- C1: calling enterProcessingLoop or enterProcessingLoopAsync while the
loop state is RunningSync or RunningAsync fails with AlreadyRunning, makes
no dispatch, and leaves the Connection (hence the already-active loop's
state) unaffected; and the loop state only ever takes the values Idle,
RunningSync and RunningAsync. -/
theorem single_loop_invariant (c : Connection) (events : List FrameEvent)
    (h : c.loopState = .RunningSync ∨ c.loopState = .RunningAsync) :
    (enterProcessingLoop c events).1 = c ∧
    (enterProcessingLoop c events).2.1 = [] ∧
    ((enterProcessingLoop c events).2.2).map Error.kind = some .AlreadyRunning ∧
    (enterProcessingLoopAsync c).1 = c ∧
    ((enterProcessingLoopAsync c).2).map Error.kind = some .AlreadyRunning ∧
    (∀ s : LoopState, s = .Idle ∨ s = .RunningSync ∨ s = .RunningAsync) := by
  have hs : ∀ s : LoopState, s = .Idle ∨ s = .RunningSync ∨ s = .RunningAsync := by
    intro s; cases s <;> simp
  rcases h with h | h <;>
    simp [enterProcessingLoop, enterProcessingLoopAsync, h, hs]

/-- C1 witness: a concrete connection whose loop is RunningSync rejects both
entry points with AlreadyRunning and is left unchanged. -/
theorem single_loop_invariant_witness :
    (enterProcessingLoop runningSyncConnection [.frame 1]).1 = runningSyncConnection ∧
    (enterProcessingLoop runningSyncConnection [.frame 1]).2.1 = [] ∧
    ((enterProcessingLoop runningSyncConnection [.frame 1]).2.2).map Error.kind =
      some .AlreadyRunning ∧
    (enterProcessingLoopAsync runningSyncConnection).1 = runningSyncConnection ∧
    ((enterProcessingLoopAsync runningSyncConnection).2).map Error.kind =
      some .AlreadyRunning ∧
    (∀ s : LoopState, s = .Idle ∨ s = .RunningSync ∨ s = .RunningAsync) :=
  single_loop_invariant runningSyncConnection [.frame 1] (Or.inl rfl)

/-- Helper: the loop body delivers exactly the well-formed frames that
arrived, in arrival order. -/
theorem runLoop_fifo (events : List FrameEvent) :
    deliveredFrames (runLoop events).1 = arrivalFrames events := by
  induction events with
  | nil => rfl
  | cons e rest ih => cases e <;> simp [runLoop, arrivalFrames, deliveredFrames, ih]

/-- Helper: a run consisting solely of well-formed frames dispatches each of
them exactly once, in order, with no extra callback invocations. -/
theorem runLoop_all_frames (fs : List Nat) :
    (runLoop (fs.map FrameEvent.frame)).1 = fs.map Delivery.frame := by
  induction fs with
  | nil => rfl
  | cons f rest ih => simp [runLoop, ih]

/-- C2: during a run of the processing loop, the Dispatch Callback Surface
receives the well-formed frames exactly once each, synchronously, in
transport arrival order with no reordering, batching or dropping (malformed
frames take the explicit delivery-error path instead); the synchronous entry
point and the asynchronous loop body both produce exactly the shared loop
body's delivery sequence. -/
theorem fifo_in_order_delivery (events : List FrameEvent) :
    deliveredFrames (runLoop events).1 = arrivalFrames events ∧
    (∀ fs : List Nat, (runLoop (fs.map FrameEvent.frame)).1 = fs.map Delivery.frame) ∧
    (∀ c : Connection, c.loopState = .Idle →
      (enterProcessingLoop c events).2.1 = (runLoop events).1 ∧
      (asyncLoopRun c events).2 = (runLoop events).1) := by
  refine ⟨runLoop_fifo events, runLoop_all_frames, ?_⟩
  intro c hc
  exact ⟨by simp [enterProcessingLoop, hc], rfl⟩

/-- C2 witness: on a fresh Idle connection, a concrete run with frames 1, 2
and 3 arriving in that order dispatches exactly those frames in that
order. -/
theorem fifo_in_order_delivery_witness :
    (enterProcessingLoop (freshConnection .system)
        [.frame 1, .frame 2, .frame 3, .stopSignal]).2.1 =
      (runLoop [.frame 1, .frame 2, .frame 3, .stopSignal]).1 :=
  ((fifo_in_order_delivery [.frame 1, .frame 2, .frame 3, .stopSignal]).2.2
    (freshConnection .system) rfl).1

/-- C6: a malformed frame is reported to the Dispatch Callback Surface as a
delivery error and does not terminate the loop — each subsequent well-formed
frame is still delivered and the rest of the run is unchanged; a broken
transport is fatal, producing a TransportError that stops the loop; that
fatal error propagates out of the synchronous enterProcessingLoop and is
recorded on the connection by the asynchronous loop body, never silently
swallowed. -/
theorem malformed_frame_nonfatal (events : List FrameEvent) (f : Nat) :
    (runLoop (.malformed :: events)).1 = .deliveryError :: (runLoop events).1 ∧
    (runLoop (.malformed :: events)).2 = (runLoop events).2 ∧
    (runLoop (.malformed :: .frame f :: events)).1 =
      .deliveryError :: .frame f :: (runLoop events).1 ∧
    runLoop (.transportBroken :: events) =
      ([], some ⟨.TransportError, "transport broken"⟩) ∧
    (∀ c : Connection, c.loopState = .Idle →
      (enterProcessingLoop c events).2.2 = (runLoop events).2 ∧
      (asyncLoopRun c events).1.recordedError = (runLoop events).2) := by
  refine ⟨rfl, rfl, rfl, rfl, ?_⟩
  intro c hc
  exact ⟨by simp [enterProcessingLoop, hc], rfl⟩

/-- C6 witness: on a fresh Idle connection, a concrete run delivering frame
1, then a malformed frame, then frame 2 invokes the callback with frame 1, a
delivery error, and frame 2, and ends without a fatal error. -/
theorem malformed_frame_nonfatal_witness :
    (runLoop (.malformed :: [.frame 2, .stopSignal])).1 =
      .deliveryError :: (runLoop [.frame 2, .stopSignal]).1 ∧
    (enterProcessingLoop (freshConnection .system) [.frame 2, .stopSignal]).2.2 =
      (runLoop [.frame 2, .stopSignal]).2 :=
  ⟨(malformed_frame_nonfatal [.frame 2, .stopSignal] 2).1,
    ((malformed_frame_nonfatal [.frame 2, .stopSignal] 2).2.2.2.2
      (freshConnection .system) rfl).1⟩

/-- C7: leaveProcessingLoop on an Idle connection is a no-op — it returns
successfully with no error and the whole Connection state (loop state, Name
Registry, Transport Handle) unchanged; on an active loop of either kind it
stops the loop (the state settles to Idle), joins any background context,
returns no error, and leaves the Name Registry and Transport Handle
intact. -/
theorem leave_loop_idle_noop (c : Connection) (h : c.loopState = .Idle) :
    leaveProcessingLoop c = (c, none) ∧
    (∀ d : Connection, d.loopState ≠ .Idle →
      (leaveProcessingLoop d).1.loopState = .Idle ∧
      (leaveProcessingLoop d).1.backgroundJoined = true ∧
      (leaveProcessingLoop d).1.names = d.names ∧
      (leaveProcessingLoop d).1.transportOpen = d.transportOpen ∧
      (leaveProcessingLoop d).2 = none) := by
  refine ⟨by simp [leaveProcessingLoop, h], ?_⟩
  intro d hd
  rcases hls : d.loopState with _ | _ | _
  · exact absurd hls hd
  · simp [leaveProcessingLoop, hls]
  · simp [leaveProcessingLoop, hls]

/-- C7 witness: on a concrete Idle connection leaveProcessingLoop returns it
unchanged with no error, and on a concrete RunningAsync connection it stops
and joins the loop. -/
theorem leave_loop_idle_noop_witness :
    leaveProcessingLoop (freshConnection .system) = (freshConnection .system, none) ∧
    (leaveProcessingLoop runningAsyncConnection).1.loopState = .Idle :=
  ⟨(leave_loop_idle_noop (freshConnection .system) rfl).1,
    ((leave_loop_idle_noop (freshConnection .system) rfl).2 runningAsyncConnection
      (by simp [runningAsyncConnection, freshConnection])).1⟩

/-- C3: destroying a Connection whose loop state is RunningAsync performs
the equivalent of leaveProcessingLoop before releasing the Transport Handle:
the resulting state is exactly the left-loop state with the transport
closed, the background context is joined (not leaked), the loop has settled
to Idle, and destruction itself makes no Dispatch Callback Surface
invocation. -/
theorem destroy_async_joins (c : Connection) (h : c.loopState = .RunningAsync) :
    (destroy c).1 = { (leaveProcessingLoop c).1 with transportOpen := false } ∧
    (destroy c).1.backgroundJoined = true ∧
    (destroy c).1.loopState = .Idle ∧
    (destroy c).1.transportOpen = false ∧
    (destroy c).2 = [] := by
  refine ⟨by simp [destroy, h], ?_, ?_, rfl, rfl⟩ <;>
    simp [destroy, h, leaveProcessingLoop]

/-- C3 witness: destroying a concrete RunningAsync connection joins the
background context, settles the loop to Idle, closes the transport and makes
no callback invocation. -/
theorem destroy_async_joins_witness :
    (destroy runningAsyncConnection).1.backgroundJoined = true ∧
    (destroy runningAsyncConnection).1.loopState = .Idle ∧
    (destroy runningAsyncConnection).2 = [] :=
  ⟨(destroy_async_joins runningAsyncConnection rfl).2.1,
    (destroy_async_joins runningAsyncConnection rfl).2.2.1,
    (destroy_async_joins runningAsyncConnection rfl).2.2.2.2⟩

/-- Helper: after a granted requestName, the name is in the registry. -/
theorem requestName_granted_mem (c : Connection) (n : String) :
    n ∈ (requestName c n .granted).1.names := by
  by_cases h : n ∈ c.names <;> simp [requestName, h]

/-- Helper: requestName preserves a duplicate-free Name Registry. -/
theorem requestName_nodup (c : Connection) (n : String) (reply : BusReply)
    (h : c.names.Nodup) : (requestName c n reply).1.names.Nodup := by
  by_cases hm : n ∈ c.names
  · simp [requestName, hm, h]
  · cases reply <;> simp [requestName, hm, h, List.nodup_append]

/-- Helper: releasing a name not recorded in the registry fails with
NotOwned and leaves the state unchanged. -/
theorem releaseName_not_owned (c : Connection) (n : String) (ioOk : Bool)
    (h : n ∉ c.names) :
    (releaseName c n ioOk).1 = c ∧
    ((releaseName c n ioOk).2).map Error.kind = some .NotOwned := by
  simp [releaseName, h]

/-- Helper: releasing an owned name on a duplicate-free registry removes it
completely. -/
theorem releaseName_removes (c : Connection) (n : String)
    (hm : n ∈ c.names) (hnd : c.names.Nodup) :
    n ∉ (releaseName c n true).1.names := by
  simpa [releaseName, hm] using hnd.not_mem_erase

/-- C4: requestName of a name followed immediately by releaseName of it, on
a Connection whose registry is duplicate-free, leaves the Name Registry
without the name; a second releaseName then fails with NotOwned and changes
nothing; and in general releaseName fails with NotOwned, leaving the state
unchanged, whenever the registry has no record of owning the name. -/
theorem request_release_roundtrip (c : Connection) (n : String) (ioOk : Bool)
    (hnd : c.names.Nodup) :
    n ∉ ((releaseName (requestName c n .granted).1 n true).1).names ∧
    ((releaseName (releaseName (requestName c n .granted).1 n true).1 n ioOk).2).map
      Error.kind = some .NotOwned ∧
    (releaseName (releaseName (requestName c n .granted).1 n true).1 n ioOk).1 =
      (releaseName (requestName c n .granted).1 n true).1 ∧
    (∀ d : Connection, n ∉ d.names →
      ((releaseName d n ioOk).2).map Error.kind = some .NotOwned ∧
      (releaseName d n ioOk).1 = d) := by
  have hgone : n ∉ ((releaseName (requestName c n .granted).1 n true).1).names :=
    releaseName_removes _ n (requestName_granted_mem c n)
      (requestName_nodup c n .granted hnd)
  refine ⟨hgone, (releaseName_not_owned _ n ioOk hgone).2,
    (releaseName_not_owned _ n ioOk hgone).1, ?_⟩
  intro d hd
  exact ⟨(releaseName_not_owned d n ioOk hd).2, (releaseName_not_owned d n ioOk hd).1⟩

/-- C4 witness: on a fresh system-bus connection, requesting then releasing
a concrete name empties the registry of it, and a second release fails with
NotOwned. -/
theorem request_release_roundtrip_witness :
    "org.demo.App" ∉
      ((releaseName (requestName (freshConnection .system) "org.demo.App" .granted).1
        "org.demo.App" true).1).names ∧
    ((releaseName
        (releaseName (requestName (freshConnection .system) "org.demo.App" .granted).1
          "org.demo.App" true).1
        "org.demo.App" true).2).map Error.kind = some .NotOwned :=
  ⟨(request_release_roundtrip (freshConnection .system) "org.demo.App" true
      List.nodup_nil).1,
    (request_release_roundtrip (freshConnection .system) "org.demo.App" true
      List.nodup_nil).2.1⟩

/-- C5: on a Connection whose registry is duplicate-free, requestName of the
same name twice in succession with no intervening release succeeds both
times; the second call is a no-op success, and the Name Registry contains
the name exactly once afterwards. -/
theorem request_idempotent (c : Connection) (n : String) (reply : BusReply)
    (hnd : c.names.Nodup) :
    (requestName c n .granted).2 = none ∧
    requestName (requestName c n .granted).1 n reply =
      ((requestName c n .granted).1, none) ∧
    ((requestName c n .granted).1.names).count n = 1 := by
  refine ⟨?_, ?_, ?_⟩
  · by_cases hm : n ∈ c.names <;> simp [requestName, hm]
  · have hm := requestName_granted_mem c n
    generalize (requestName c n .granted).1 = d at hm ⊢
    simp [requestName, hm]
  · exact List.count_eq_one_of_mem (requestName_nodup c n .granted hnd)
      (requestName_granted_mem c n)

/-- C5 witness: on a fresh session-bus connection, requesting a concrete
name twice succeeds both times, the second call is a no-op, and the registry
holds the name exactly once. -/
theorem request_idempotent_witness :
    (requestName (freshConnection .session) "org.demo.App" .granted).2 = none ∧
    requestName (requestName (freshConnection .session) "org.demo.App" .granted).1
      "org.demo.App" .granted =
      ((requestName (freshConnection .session) "org.demo.App" .granted).1, none) ∧
    ((requestName (freshConnection .session) "org.demo.App" .granted).1.names).count
      "org.demo.App" = 1 :=
  request_idempotent (freshConnection .session) "org.demo.App" .granted List.nodup_nil

/-- C8: the factory surface covers exactly the four combinations of
system/session bus with named/anonymous — every combination is the target of
a declared factory call — and each opening either returns a fully formed
owned Connection (open transport, Idle loop, the requested name recorded for
the named variants) or fails with an error; failure to establish the
transport yields the transport-establishment error, and there is no
partial-success result. -/
theorem factory_surface (b : BusKind) (s : ConnSpec) (transportOk : Bool)
    (reply : BusReply) :
    (∀ optName : Option String, ∃ call : FactoryCall, factoryTarget call = ⟨b, optName⟩) ∧
    openConnection s false reply =
      .error ⟨.TransportError, "failed to establish bus transport"⟩ ∧
    ((∃ c, openConnection s transportOk reply = .ok c ∧ c.transportOpen = true ∧
        c.loopState = .Idle ∧ c.bus = s.bus ∧ c.names = s.requestedName.toList) ∨
      (∃ e, openConnection s transportOk reply = .error e)) := by
  refine ⟨?_, by simp [openConnection], ?_⟩
  · intro optName
    cases b <;> rcases optName with _ | nm
    · exact ⟨.createSystemBusConnection, rfl⟩
    · exact ⟨.createSystemBusConnectionWithName nm, rfl⟩
    · exact ⟨.createSessionBusConnection, rfl⟩
    · exact ⟨.createSessionBusConnectionWithName nm, rfl⟩
  · cases transportOk
    · exact Or.inr ⟨⟨.TransportError, "failed to establish bus transport"⟩,
        by simp [openConnection]⟩
    · obtain ⟨sb, sn⟩ := s
      rcases sn with _ | nm
      · exact Or.inl ⟨freshConnection sb,
          by simp [openConnection], rfl, rfl, rfl, rfl⟩
      · cases reply
        · exact Or.inl ⟨{ freshConnection sb with names := [nm] },
            by simp [openConnection, requestName, freshConnection], rfl, rfl, rfl, rfl⟩
        · exact Or.inr ⟨⟨.NameUnavailable, "name already owned by another peer"⟩,
            by simp [openConnection, requestName, freshConnection]⟩
        · exact Or.inr ⟨⟨.InvalidName, "malformed bus name"⟩,
            by simp [openConnection, requestName, freshConnection]⟩
        · exact Or.inr ⟨⟨.TransportError, "transport I/O failure"⟩,
            by simp [openConnection, requestName, freshConnection]⟩

/-- C9: the default factory functions are the system-bus factories: the
anonymous and named default factory calls target exactly the combination of
the corresponding explicit system-bus factory calls, the default
connection's bus kind is fixed to the system bus, and opening through the
default factories behaves identically to opening through the system-bus
factories on every input. -/
theorem default_factory_is_system :
    factoryTarget .createConnection = factoryTarget .createSystemBusConnection ∧
    (∀ n, factoryTarget (.createConnectionWithName n) =
      factoryTarget (.createSystemBusConnectionWithName n)) ∧
    (factoryTarget .createConnection).bus = .system ∧
    (∀ transportOk reply, openConnection (factoryTarget .createConnection) transportOk reply =
      openConnection (factoryTarget .createSystemBusConnection) transportOk reply) ∧
    (∀ n transportOk reply,
      openConnection (factoryTarget (.createConnectionWithName n)) transportOk reply =
        openConnection (factoryTarget (.createSystemBusConnectionWithName n))
          transportOk reply) :=
  ⟨rfl, fun _ => rfl, rfl, fun _ _ => rfl, fun _ _ _ => rfl⟩

/-- C10: every operation of the public surface declared in IConnection.h
reports failure solely by throwing sdbus::Error, returns no error code or
boolean status, and on success returns either void or an owned Connection;
and every Error value carries exactly an identifying kind and a message. -/
theorem single_error_channel (op : ApiOperation) (h : op ∈ publicSurface) :
    op.throwsSdbusError = true ∧ op.returnsErrorCode = false ∧
    (op.returns = .unitReturn ∨ op.returns = .ownedConnection) ∧
    (∀ e : Error, e = ⟨e.kind, e.message⟩) := by
  refine ⟨?_, ?_, ?_, fun e => rfl⟩ <;> fin_cases h <;> simp

/-- C10 witness: the requestName operation of the declared surface throws
sdbus::Error only, returns no error code, and returns void on success. -/
theorem single_error_channel_witness :
    (⟨"requestName", .unitReturn, true, false⟩ : ApiOperation).throwsSdbusError = true ∧
    (⟨"requestName", .unitReturn, true, false⟩ : ApiOperation).returnsErrorCode = false ∧
    ((⟨"requestName", .unitReturn, true, false⟩ : ApiOperation).returns = .unitReturn ∨
      (⟨"requestName", .unitReturn, true, false⟩ : ApiOperation).returns = .ownedConnection) ∧
    (∀ e : Error, e = ⟨e.kind, e.message⟩) :=
  single_error_channel ⟨"requestName", .unitReturn, true, false⟩ (by simp [publicSurface])

end SdbusSpec
